import Mathlib

/-!
Shallow embedding of the ezsetup package installer (src/src/ezsetup.py) and
verification of its natural-language specification.

Byte buffers are modelled as `List Nat` (each element a byte value), strings as
Lean `String` (with `List Char` for the character-level parsing), fallible
operations as `Except Err`.  The external collaborators (network transport,
tar extraction, shell execution) are modelled as an explicit `World` record of
oracles; the observable actions of one invocation are recorded as a list of
`Event`s so that ordering properties (fetch-then-verify, no script after a
failure) are statable.
-/

namespace EzSetup

/-- Truncation to a 32-bit word, written with an explicit modulus. -/
def w32 (n : Nat) : Nat := n % 4294967296

/-- Right rotation of a 32-bit word by `n` bits. -/
def rotr (x n : Nat) : Nat := w32 ((x >>> n) + (x <<< (32 - n)))

/-- Bitwise complement of a 32-bit word. -/
def not32 (x : Nat) : Nat := x ^^^ 4294967295

/-- SHA-256 choice function. -/
def chooseFn (x y z : Nat) : Nat := (x &&& y) ^^^ (not32 x &&& z)

/-- SHA-256 majority function. -/
def majorityFn (x y z : Nat) : Nat := (x &&& y) ^^^ (x &&& z) ^^^ (y &&& z)

/-- SHA-256 upper-case sigma 0 function. -/
def sumFn0 (x : Nat) : Nat := rotr x 2 ^^^ (rotr x 13 ^^^ rotr x 22)

/-- SHA-256 upper-case sigma 1 function. -/
def sumFn1 (x : Nat) : Nat := rotr x 6 ^^^ (rotr x 11 ^^^ rotr x 25)

/-- SHA-256 lower-case sigma 0 function. -/
def mixFn0 (x : Nat) : Nat := rotr x 7 ^^^ (rotr x 18 ^^^ (x >>> 3))

/-- SHA-256 lower-case sigma 1 function. -/
def mixFn1 (x : Nat) : Nat := rotr x 17 ^^^ (rotr x 19 ^^^ (x >>> 10))

/-- The 64 SHA-256 round constants of FIPS 180-4, in decimal. -/
def sha256K : List Nat :=
  [1116352408, 1899447441, 3049323471, 3921009573, 961987163,
   1508970993, 2453635748, 2870763221, 3624381080, 310598401,
   607225278, 1426881987, 1925078388, 2162078206, 2614888103,
   3248222580, 3835390401, 4022224774, 264347078, 604807628,
   770255983, 1249150122, 1555081692, 1996064986, 2554220882,
   2821834349, 2952996808, 3210313671, 3336571891, 3584528711,
   113926993, 338241895, 666307205, 773529912, 1294757372,
   1396182291, 1695183700, 1986661051, 2177026350, 2456956037,
   2730485921, 2820302411, 3259730800, 3345764771, 3516065817,
   3600352804, 4094571909, 275423344, 430227734, 506948616,
   659060556, 883997877, 958139571, 1322822218, 1537002063,
   1747873779, 1955562222, 2024104815, 2227730452, 2361852424,
   2428436474, 2756734187, 3204031479, 3329325298]

/-- The SHA-256 initial hash value of FIPS 180-4, in decimal. -/
def sha256Init : List Nat :=
  [1779033703, 3144134277, 1013904242, 2773480762,
   1359893119, 2600822924, 528734635, 1541459225]

/-- Big-endian byte encoding of `v` on `n` bytes. -/
def beBytes : Nat → Nat → List Nat
  | 0, _ => []
  | n + 1, v => beBytes n (v / 256) ++ [v % 256]

/-- SHA-256 padding: append the 0x80 byte, zeros to 56 mod 64, and the
bit length on 8 big-endian bytes. -/
def sha256Pad (msg : List Nat) : List Nat :=
  let len := msg.length
  let k := (120 - (len + 1) % 64) % 64
  msg ++ [128] ++ List.replicate k 0 ++ beBytes 8 (8 * len)

/-- Group a byte list into 32-bit big-endian words. -/
def toWords : List Nat → List Nat
  | a :: b :: c :: d :: rest => (((a * 256 + b) * 256 + c) * 256 + d) :: toWords rest
  | _ => []

/-- Message-schedule extension, keeping the schedule in reverse order so that
the most recently produced word is at the head. -/
def schedExtend : Nat → List Nat → List Nat
  | 0, rev => rev
  | n + 1, rev =>
    let wt := w32 (mixFn1 (rev.getD 1 0) + rev.getD 6 0 + mixFn0 (rev.getD 14 0) + rev.getD 15 0)
    schedExtend n (wt :: rev)

/-- One SHA-256 compression round on the state `[a,b,c,d,e,f,g,h]`. -/
def sha256Round (k w : Nat) : List Nat → List Nat
  | [a, b, c, d, e, f, g, h] =>
    let t1 := w32 (h + sumFn1 e + chooseFn e f g + k + w)
    let t2 := w32 (sumFn0 a + majorityFn a b c)
    [w32 (t1 + t2), a, b, c, w32 (d + t1), e, f, g]
  | st => st

/-- Compress one 16-word block into the running hash. -/
def compressBlock (h : List Nat) (block : List Nat) : List Nat :=
  let ws := (schedExtend 48 block.reverse).reverse
  let st := (List.zip sha256K ws).foldl (fun st kw => sha256Round kw.1 kw.2 st) h
  List.zipWith (fun x y => w32 (x + y)) h st

/-- Iterate the compression function over `n` 16-word blocks. -/
def sha256Blocks : Nat → List Nat → List Nat → List Nat
  | 0, h, _ => h
  | n + 1, h, ws => sha256Blocks n (compressBlock h (ws.take 16)) (ws.drop 16)

/-- SHA-256 of a byte list, as the list of eight 32-bit hash words. -/
def sha256Words (msg : List Nat) : List Nat :=
  let ws := toWords (sha256Pad msg)
  sha256Blocks (ws.length / 16) sha256Init ws

/-- Lower-case hexadecimal digit for a nibble value. -/
def hexDigitChar (n : Nat) : Char :=
  if n < 10 then Char.ofNat (48 + n) else Char.ofNat (87 + n)

/-- The `n` most significant nibbles of `v`, most significant first. -/
def hexNibbles : Nat → Nat → List Char
  | 0, _ => []
  | n + 1, v => hexDigitChar ((v >>> (4 * n)) % 16) :: hexNibbles n v

/-- Lower-case hexadecimal SHA-256 digest of a byte list, mirroring
Python `hashlib.sha256(data).hexdigest()`. -/
def sha256Hex (msg : List Nat) : String :=
  String.mk ((sha256Words msg).foldr (fun w acc => hexNibbles 8 w ++ acc) [])

/-- Byte values of an ASCII string, for writing test vectors. -/
def strBytes (s : String) : List Nat := s.toList.map Char.toNat

/-! ## Error taxonomy

Every failure in `ezsetup.py` is a raised Python exception; the distinct
raise sites (and the distinct exception types raised by the collaborators)
are modelled as constructors of one error type, carrying the same data the
corresponding message carries. -/

/-- Errors of one ezsetup invocation.  The constructors correspond to the
raise sites of `ezsetup.py`: `malformedDescriptor` to the split-length check
in `UriResource.__init__`, `unsupportedAlgorithm` to the fallthrough of
`UriResource._verify`, `verificationError` (carrying the expected and the
computed digest) to `UriResource._verifier_sha256`, `fetchError` to a
`urllib` failure, `extractionError` to a `tarfile` failure, `emptyArchive`
and `invalidPackageLayout` to the two raises of `Package._find_srcdir`,
`scriptExecution` (carrying the exit code) to
`subprocess.CompletedProcess.check_returncode`, and `noneJoinTypeError` to
the `TypeError` that `os.path.join(None, entry)` raises in
`Package._make_path` when `_srcdir` is still `None`. -/
inductive Err where
  | malformedDescriptor (uri : String)
  | unsupportedAlgorithm (algo : String)
  | verificationError (expected computed : String)
  | fetchError
  | extractionError
  | emptyArchive
  | invalidPackageLayout
  | scriptExecution (code : Nat)
  | noneJoinTypeError
  deriving DecidableEq, Repr

/-! ## UriResource: descriptor parsing and verification -/

/-- Python `str.split(sep, maxsplit)` on character lists: `pySplit sep s n`
splits `s` at the first `n` occurrences of `sep`, leaving later occurrences
inside the final segment.  The result is always nonempty. -/
def pySplit (sep : Char) : List Char → Nat → List (List Char)
  | [], _ => [[]]
  | c :: rest, limit =>
    if c = sep then
      match limit with
      | 0 =>
        match pySplit sep rest 0 with
        | seg :: segs => (c :: seg) :: segs
        | [] => [[c]]
      | n + 1 => [] :: pySplit sep rest n
    else
      match pySplit sep rest limit with
      | seg :: segs => (c :: seg) :: segs
      | [] => [[c]]

/-- A parsed resource descriptor: the fields `_algo`, `_tag` and `_url` of
`UriResource`. -/
structure UriResource where
  algo : String
  tag : String
  url : String
  deriving DecidableEq, Repr

/-- Embedding of `UriResource.__init__`: split the descriptor on the
separator with `maxsplit` 2 and require exactly three segments. -/
def parseUri (uri : String) : Except Err UriResource :=
  match pySplit (Char.ofNat 61) uri.toList 2 with
  | [a, t, u] => .ok ⟨String.mk a, String.mk t, String.mk u⟩
  | _ => .error (.malformedDescriptor uri)

/-- Embedding of `UriResource._verifier_sha256`: compare the lower-case hex
SHA-256 digest of the data with the stored tag. -/
def UriResource.verifierSha256 (tag : String) (data : List Nat) : Except Err Unit :=
  let computed := sha256Hex data
  if computed = tag then .ok () else .error (.verificationError tag computed)

/-- Embedding of `UriResource._verify`: dispatch on the algorithm token. -/
def UriResource.verify (r : UriResource) (data : List Nat) : Except Err Unit :=
  if r.algo = "none" then .ok ()
  else if r.algo = "sha256" then UriResource.verifierSha256 r.tag data
  else .error (.unsupportedAlgorithm r.algo)

/-! ## The extracted filesystem model -/

/-- A top-level entry of the scratch directory after extraction, as seen by
`Package._find_srcdir`: `os.listdir` yields its name, `os.path.isdir` tells
the two cases apart, and for a directory a second `os.listdir` yields the
names of its immediate entries.  The function never looks deeper, so one
level of names suffices. -/
inductive FsEntry where
  | file (name : String)
  | dir (name : String) (contents : List String)
  deriving DecidableEq, Repr

/-- Name of an entry, as `os.listdir` reports it. -/
def FsEntry.name : FsEntry → String
  | .file n => n
  | .dir n _ => n

/-- Embedding of `os.path.join(base, entry)` for the paths this program
builds (no absolute second component, no trailing slash on the base). -/
def pathJoin (base entry : String) : String := base ++ "/" ++ entry

/-! ## The world of external collaborators and the event trace -/

/-- Oracles for the external collaborators called by `ezsetup.py`:
the network (`urllib.request.urlopen(url).read()`, `none` being a transport
failure), tar extraction (`tarfile.extractall`, producing the resulting
top-level listing of the scratch directory, `none` being a corrupt archive),
and shell execution of a script in a working directory, producing the exit
status. -/
structure World where
  net : String → Option (List Nat)
  extractListing : List Nat → Option (List FsEntry)
  runScript : String → String → Nat

/-- Observable actions of one invocation, in order: a completed download,
a completed extraction, and the execution of a script in a working
directory. -/
inductive Event where
  | fetched (url : String)
  | extracted
  | scriptRun (script : String) (cwd : String)
  deriving DecidableEq, Repr

/-- Embedding of `UriResource.fetch`: download, then verify; the data is
returned only when verification succeeded, and the `fetched` event is
recorded whenever the download itself completed. -/
def UriResource.fetch (r : UriResource) (w : World) :
    Except Err (List Nat) × List Event :=
  match w.net r.url with
  | none => (.error .fetchError, [])
  | some data =>
    match r.verify data with
    | .ok _ => (.ok data, [.fetched r.url])
    | .error e => (.error e, [.fetched r.url])

/-! ## Script -/

/-- Embedding of `Script.exec`: run the script through the shell in the
given working directory and check the return code; `check_returncode`
raises `CalledProcessError` (carrying the exit code) on a non-zero status.
The `scriptRun` event is recorded in either case: the script did run. -/
def scriptExec (script cwd : String) (w : World) : Except Err Unit × List Event :=
  let code := w.runScript script cwd
  if code = 0 then (.ok (), [.scriptRun script cwd])
  else (.error (.scriptExecution code), [.scriptRun script cwd])

/-! ## Package -/

/-- A `Package` instance: the descriptor URI, the name of the scratch
temporary directory, and the resolved source directory, which is `None`
until `fetch` completes (`_srcdir = None` in `Package.__init__`). -/
structure Package where
  uri : String
  tempdirName : String
  srcdir : Option String
  deriving DecidableEq, Repr

/-- A freshly constructed package, as `Package.__init__` leaves it: the
source directory is still unresolved. -/
def freshPackage (uri tempdirName : String) : Package :=
  ⟨uri, tempdirName, none⟩

/-- Inner loop of `Package._find_srcdir`: among the top-level entries, in
listing order, find the first directory whose own listing contains both
script names (non-directories are filtered out by `os.path.isdir`). -/
def findSrcdirLoop (tempdirName : String) : List FsEntry → Except Err String
  | [] => .error .invalidPackageLayout
  | .file _ :: rest => findSrcdirLoop tempdirName rest
  | .dir n contents :: rest =>
    if "install.sh" ∈ contents ∧ "uninstall.sh" ∈ contents then
      .ok (pathJoin tempdirName n)
    else findSrcdirLoop tempdirName rest

/-- Embedding of `Package._find_srcdir`: fail on an empty listing, accept
the scratch root when its listing contains both script names, otherwise
scan the top-level directories; fail if nothing matches. -/
def findSrcdir (tempdirName : String) (entries : List FsEntry) : Except Err String :=
  let names := entries.map FsEntry.name
  if entries.length < 1 then .error .emptyArchive
  else if "install.sh" ∈ names ∧ "uninstall.sh" ∈ names then
    .ok tempdirName
  else findSrcdirLoop tempdirName entries

/-- First immediate subdirectory, in listing order, that directly contains
both named lifecycle scripts; used by the spec-side resolution algorithm. -/
def firstMatchingSubdir (tempdirName : String) : List FsEntry → Option String
  | [] => none
  | .file _ :: rest => firstMatchingSubdir tempdirName rest
  | .dir n contents :: rest =>
    if "install.sh" ∈ contents ∧ "uninstall.sh" ∈ contents then
      some (pathJoin tempdirName n)
    else firstMatchingSubdir tempdirName rest

/-- Source-root resolution modelled from the spec: fail with
EmptyArchiveError on zero entries; (a) if the scratch root itself directly
contains both named lifecycle scripts it is the source root; (b) otherwise
scan immediate subdirectories in listing order and return the first one
that directly contains both named scripts; (c) if none match, fail with
InvalidPackageLayoutError. -/
def findSrcdirSpec (tempdirName : String) (entries : List FsEntry) : Except Err String :=
  if entries.length = 0 then .error .emptyArchive
  else if "install.sh" ∈ entries.map FsEntry.name
       ∧ "uninstall.sh" ∈ entries.map FsEntry.name then
    .ok tempdirName
  else
    match firstMatchingSubdir tempdirName entries with
    | some d => .ok d
    | none => .error .invalidPackageLayout

/-- Embedding of `Package.fetch`: parse the descriptor
(`UriResource(self._uri)`), download and verify, extract into the scratch
directory, and resolve the source directory.  The `extracted` event is
recorded once `tarfile.extractall` completed. -/
def Package.fetch (p : Package) (w : World) : Except Err Package × List Event :=
  match parseUri p.uri with
  | .error e => (.error e, [])
  | .ok r =>
    match r.fetch w with
    | (.error e, ev) => (.error e, ev)
    | (.ok data, ev) =>
      match w.extractListing data with
      | none => (.error .extractionError, ev)
      | some entries =>
        match findSrcdir p.tempdirName entries with
        | .error e => (.error e, ev ++ [.extracted])
        | .ok src => (.ok { p with srcdir := some src }, ev ++ [.extracted])

/-- Embedding of `Package.install`: build the script path with
`_make_path` and execute it in the source directory.  When `_srcdir` is
still `None`, `os.path.join(None, "install.sh")` raises a `TypeError`
before any script is executed. -/
def Package.install (p : Package) (w : World) : Except Err Unit × List Event :=
  match p.srcdir with
  | none => (.error .noneJoinTypeError, [])
  | some src => scriptExec (pathJoin src "install.sh") src w

/-- Embedding of `Package.uninstall`, symmetric to `Package.install`. -/
def Package.uninstall (p : Package) (w : World) : Except Err Unit × List Event :=
  match p.srcdir with
  | none => (.error .noneJoinTypeError, [])
  | some src => scriptExec (pathJoin src "uninstall.sh") src w

/-! ## Cli and the process boundary -/

/-- Outcome of one process run: the process exit status, whether the usage
text was printed, the error that escaped (if any), and the recorded
events.  An uncaught Python exception terminates CPython with exit
status 1; `sys.exit(0)` and `sys.exit(1)` in `Cli._help` give 0 and 1. -/
structure RunResult where
  exitCode : Nat
  usagePrinted : Bool
  err : Option Err
  events : List Event
  deriving DecidableEq, Repr

/-- Embedding of `Cli.exec` for a given verb and package descriptor,
together with the process boundary: an error escaping `exec` is an
uncaught exception, so the process exits with status 1. -/
def cliExec (verb pkg tempdirName : String) (w : World) : RunResult :=
  if verb = "install" then
    match (freshPackage pkg tempdirName).fetch w with
    | (.error e, ev) => ⟨1, false, some e, ev⟩
    | (.ok p, ev) =>
      match p.install w with
      | (.ok _, ev2) => ⟨0, false, none, ev ++ ev2⟩
      | (.error e, ev2) => ⟨1, false, some e, ev ++ ev2⟩
  else if verb = "uninstall" then
    match (freshPackage pkg tempdirName).fetch w with
    | (.error e, ev) => ⟨1, false, some e, ev⟩
    | (.ok p, ev) =>
      match p.uninstall w with
      | (.ok _, ev2) => ⟨0, false, none, ev ++ ev2⟩
      | (.error e, ev2) => ⟨1, false, some e, ev ++ ev2⟩
  else if verb = "help" then ⟨0, true, none, []⟩
  else ⟨1, true, none, []⟩

/-- Embedding of `Cli.__init__` plus `Cli.exec`: with fewer than three
`argv` entries (program name, verb, descriptor), `_help(errorneous=True)`
prints the usage and exits with status 1; otherwise `argv[1]` is the verb
and `argv[2]` the descriptor. -/
def cliRun (argv : List String) (tempdirName : String) (w : World) : RunResult :=
  if argv.length < 3 then ⟨1, true, none, []⟩
  else cliExec (argv.getD 1 "") (argv.getD 2 "") tempdirName w

/-- Decidable check that a trace contains no script execution. -/
def scriptFree (evs : List Event) : Bool :=
  evs.all fun e =>
    match e with
    | .scriptRun _ _ => false
    | _ => true

/-- Concrete world whose collaborators all fail or return defaults; used to
instantiate universally quantified statements. -/
def trivialWorld : World :=
  ⟨fun _ => none, fun _ => none, fun _ _ => 0⟩

/-! ## Helper lemmas -/

theorem scriptFree_append (a b : List Event) :
    scriptFree (a ++ b) = (scriptFree a && scriptFree b) := by
  simp [scriptFree, List.all_append]

theorem uriFetch_scriptFree (r : UriResource) (w : World) :
    scriptFree (r.fetch w).2 = true := by
  rcases hn : w.net r.url with _ | data
  · simp [UriResource.fetch, hn, scriptFree]
  · rcases hv : r.verify data with e | u <;>
      simp [UriResource.fetch, hn, hv, scriptFree]

theorem packageFetch_scriptFree (p : Package) (w : World) :
    scriptFree (p.fetch w).2 = true := by
  rcases hp : parseUri p.uri with e | r
  · simp [Package.fetch, hp, scriptFree]
  · rcases hf : r.fetch w with ⟨res, ev⟩
    have hev : scriptFree ev = true := by
      have h := uriFetch_scriptFree r w
      rw [hf] at h
      exact h
    rcases res with e | data
    · simp only [Package.fetch, hp, hf]
      exact hev
    · rcases hx : w.extractListing data with _ | entries
      · simp only [Package.fetch, hp, hf, hx]
        exact hev
      · rcases hs : findSrcdir p.tempdirName entries with e | src
        · simp only [Package.fetch, hp, hf, hx, hs]
          rw [scriptFree_append, hev]
          rfl
        · simp only [Package.fetch, hp, hf, hx, hs]
          rw [scriptFree_append, hev]
          rfl

theorem findSrcdirLoop_eq_first (tempdirName : String) :
    ∀ es : List FsEntry,
      findSrcdirLoop tempdirName es =
        match firstMatchingSubdir tempdirName es with
        | some d => Except.ok d
        | none => Except.error Err.invalidPackageLayout := by
  intro es
  induction es with
  | nil => rfl
  | cons e rest ih =>
    cases e with
    | file n => simpa [findSrcdirLoop, firstMatchingSubdir] using ih
    | dir n contents =>
      by_cases h : "install.sh" ∈ contents ∧ "uninstall.sh" ∈ contents
      · simp [findSrcdirLoop, firstMatchingSubdir, h]
      · simpa [findSrcdirLoop, firstMatchingSubdir, h] using ih

/-! ## Claims -/

/-- C1: source-root resolution follows exactly the spec's algorithm — the
root wins when its listing names both scripts, otherwise the first
immediate subdirectory (in listing order) listing both scripts wins, an
empty listing fails with the empty-archive error, and anything else fails
with the invalid-layout error.  The concrete conjuncts exercise scripts
two levels deep, a missing script, the empty archive, and the two
successful layouts. -/
theorem find_srcdir_follows_spec :
    (∀ (tempdirName : String) (es : List FsEntry),
        findSrcdir tempdirName es = findSrcdirSpec tempdirName es)
    ∧ findSrcdir "/scratch" [FsEntry.dir "outer" ["inner"]]
        = Except.error Err.invalidPackageLayout
    ∧ findSrcdir "/scratch" [FsEntry.dir "pkg" ["install.sh"]]
        = Except.error Err.invalidPackageLayout
    ∧ findSrcdir "/scratch" [] = Except.error Err.emptyArchive
    ∧ findSrcdir "/scratch" [FsEntry.file "install.sh", FsEntry.file "uninstall.sh"]
        = Except.ok "/scratch"
    ∧ findSrcdir "/scratch" [FsEntry.file "README",
        FsEntry.dir "pkg" ["install.sh", "uninstall.sh"]] = Except.ok "/scratch/pkg" := by
  refine ⟨?_, rfl, rfl, rfl, rfl, rfl⟩
  intro tempdirName es
  unfold findSrcdir findSrcdirSpec
  simp only [Nat.lt_one_iff]
  by_cases h0 : es.length = 0
  · simp [h0]
  · by_cases h1 : "install.sh" ∈ es.map FsEntry.name
        ∧ "uninstall.sh" ∈ es.map FsEntry.name
    · simp [h0, h1]
    · simp [h0, h1, findSrcdirLoop_eq_first]

/-- C8: with algorithm token `none`, verification succeeds unconditionally,
for every byte buffer (the empty buffer included) and every stored digest
value. -/
theorem verify_none_always_ok :
    ∀ (tag url : String) (data : List Nat),
      UriResource.verify ⟨"none", tag, url⟩ data = Except.ok () := by
  intro tag url data
  rfl

/-- C10: on a package whose fetch has not completed, the source directory
is still unresolved (`_srcdir = None`), so install and uninstall fail with
the `TypeError` from `os.path.join(None, ...)` before any script runs —
the event trace is empty.  A freshly constructed package is in exactly
that state. -/
theorem install_before_fetch_fails :
    (∀ (p : Package) (w : World), p.srcdir = none →
        p.install w = (Except.error Err.noneJoinTypeError, [])
        ∧ p.uninstall w = (Except.error Err.noneJoinTypeError, []))
    ∧ ∀ uri tempdirName, (freshPackage uri tempdirName).srcdir = none := by
  constructor
  · intro p w h
    constructor <;> simp [Package.install, Package.uninstall, h]
  · intro uri tempdirName
    rfl

/-- C10 witness: a fresh package under the trivial world. -/
theorem install_before_fetch_fails_witness :
    (freshPackage "none==http://x" "/scratch").install trivialWorld
        = (Except.error Err.noneJoinTypeError, [])
    ∧ (freshPackage "none==http://x" "/scratch").uninstall trivialWorld
        = (Except.error Err.noneJoinTypeError, []) :=
  (install_before_fetch_fails.1 (freshPackage "none==http://x" "/scratch")
    trivialWorld rfl)

/-- C9: with fewer than two positional arguments after the program name,
or with a verb other than install, uninstall and help, the usage text is
printed and the process exits with a non-zero status. -/
theorem bad_usage_exits_nonzero :
    ∀ (argv : List String) (tempdirName : String) (w : World),
      (argv.length < 3
        ∨ (argv.getD 1 "" ≠ "install" ∧ argv.getD 1 "" ≠ "uninstall"
            ∧ argv.getD 1 "" ≠ "help")) →
      (cliRun argv tempdirName w).usagePrinted = true
      ∧ (cliRun argv tempdirName w).exitCode ≠ 0 := by
  intro argv tempdirName w h
  by_cases hl : argv.length < 3
  · simp [cliRun, hl]
  · rcases h with h | ⟨h1, h2, h3⟩
    · exact absurd h hl
    · simp only [List.getD, List.get?_eq_getElem?] at h1 h2 h3
      simp [cliRun, hl, cliExec, h1, h2, h3]

/-- C9 witness: an unrecognized verb with enough arguments, under the
trivial world. -/
theorem bad_usage_exits_nonzero_witness :
    (cliRun ["ezsetup", "frobnicate", "none==http://x"] "/scratch" trivialWorld).usagePrinted
        = true
    ∧ (cliRun ["ezsetup", "frobnicate", "none==http://x"] "/scratch" trivialWorld).exitCode
        ≠ 0 :=
  bad_usage_exits_nonzero ["ezsetup", "frobnicate", "none==http://x"] "/scratch"
    trivialWorld (Or.inr ⟨by decide, by decide, by decide⟩)

/-- C6 counterexample: invoking the CLI with the verb help and nothing
else, `argv = [prog, help]`, trips the argument-count check in
`Cli.__init__` before verb dispatch, so the usage text is printed but the
process exits with status 1, not 0. -/
theorem bare_help_exits_one :
    cliRun ["ezsetup", "help"] "/scratch" trivialWorld = ⟨1, true, none, []⟩
    ∧ ¬(cliRun ["ezsetup", "help"] "/scratch" trivialWorld).exitCode = 0 :=
  ⟨rfl, by decide⟩

/-- C6 amended: invoking the CLI with the verb help together with a
further argument (so that the argument-count check in `Cli.__init__`
passes) prints the usage text and exits with status 0; the bare
`prog help` invocation instead hits the argument-count check and exits
with status 1. -/
theorem help_with_arg_exits_zero :
    ∀ (argv : List String) (tempdirName : String) (w : World),
      3 ≤ argv.length → argv.getD 1 "" = "help" →
      (cliRun argv tempdirName w).exitCode = 0
      ∧ (cliRun argv tempdirName w).usagePrinted = true := by
  intro argv tempdirName w hl hv
  have hl3 : ¬argv.length < 3 := by omega
  simp only [List.getD, List.get?_eq_getElem?] at hv
  simp [cliRun, hl3, cliExec, hv]

/-- C6 witness: `prog help x` exits 0 with the usage printed. -/
theorem help_with_arg_exits_zero_witness :
    (cliRun ["ezsetup", "help", "x"] "/scratch" trivialWorld).exitCode = 0
    ∧ (cliRun ["ezsetup", "help", "x"] "/scratch" trivialWorld).usagePrinted = true :=
  help_with_arg_exits_zero ["ezsetup", "help", "x"] "/scratch" trivialWorld
    (by decide) (by decide)

/-- C7: any algorithm token other than none and sha256 makes the fetch of
the resource fail with the unsupported-algorithm error naming the token,
and only after the download completed: the trace carries the `fetched`
event for the resource URL, showing the order is fetch-then-verify. -/
theorem unsupported_algorithm_after_fetch :
    ∀ (r : UriResource) (w : World) (data : List Nat),
      r.algo ≠ "none" → r.algo ≠ "sha256" → w.net r.url = some data →
      r.fetch w = (Except.error (Err.unsupportedAlgorithm r.algo),
        [Event.fetched r.url]) := by
  intro r w data h1 h2 hn
  simp [UriResource.fetch, hn, UriResource.verify, h1, h2]

/-- C7 witness: the md5 token under a world whose download succeeds. -/
theorem unsupported_algorithm_after_fetch_witness :
    UriResource.fetch ⟨"md5", "d41d8cd9", "http://x"⟩
        ⟨fun _ => some [1, 2, 3], fun _ => none, fun _ _ => 0⟩
      = (Except.error (Err.unsupportedAlgorithm "md5"), [Event.fetched "http://x"]) :=
  unsupported_algorithm_after_fetch ⟨"md5", "d41d8cd9", "http://x"⟩
    ⟨fun _ => some [1, 2, 3], fun _ => none, fun _ _ => 0⟩ [1, 2, 3]
    (by decide) (by decide) rfl

/-- C2: a verification failure stops the pipeline.  The resource fetch
returns the error and never the bytes; a package fetch whose verification
failed returns the error with a trace holding only the `fetched` event, so
the archive was never extracted; no package fetch ever runs a script; and
when the fetch stage of a CLI run fails, the whole run is script-free. -/
theorem verify_failure_stops_pipeline :
    (∀ (r : UriResource) (w : World) (data : List Nat) (e : Err),
        w.net r.url = some data → r.verify data = Except.error e →
        r.fetch w = (Except.error e, [Event.fetched r.url]))
    ∧ (∀ (uri tempdirName : String) (w : World) (r : UriResource)
          (data : List Nat) (e : Err),
        parseUri uri = Except.ok r → w.net r.url = some data →
        r.verify data = Except.error e →
        (freshPackage uri tempdirName).fetch w
          = (Except.error e, [Event.fetched r.url]))
    ∧ (∀ (p : Package) (w : World), scriptFree (p.fetch w).2 = true)
    ∧ (∀ (prog verb pkg tempdirName : String) (w : World) (e : Err),
        ((freshPackage pkg tempdirName).fetch w).1 = Except.error e →
        scriptFree (cliRun [prog, verb, pkg] tempdirName w).events = true) := by
  refine ⟨?_, ?_, packageFetch_scriptFree, ?_⟩
  · intro r w data e hn hv
    simp [UriResource.fetch, hn, hv]
  · intro uri tempdirName w r data e hp hn hv
    simp [Package.fetch, freshPackage, hp, UriResource.fetch, hn, hv]
  · intro prog verb pkg tempdirName w e h
    rcases hf : (freshPackage pkg tempdirName).fetch w with ⟨res, ev⟩
    rw [hf] at h
    have hres : res = Except.error e := h
    have hev : scriptFree ev = true := by
      have hh := packageFetch_scriptFree (freshPackage pkg tempdirName) w
      rw [hf] at hh
      exact hh
    subst hres
    by_cases h1 : verb = "install"
    · simpa [cliRun, cliExec, h1, hf] using hev
    · by_cases h2 : verb = "uninstall"
      · simpa [cliRun, cliExec, h1, h2, hf] using hev
      · by_cases h3 : verb = "help" <;>
          simp [cliRun, cliExec, h1, h2, h3, scriptFree]

/-- World whose download yields the byte 1 and whose other collaborators
are never reached; the sha256 tag 00 cannot match. -/
def verifyFailWorld : World :=
  ⟨fun _ => some [1], fun _ => some [], fun _ _ => 0⟩

/-- C2 witness: a descriptor with a wrong sha256 digest, fetched under a
world whose download succeeds: the fetch of the package ends in the
verification error and the trace stops at the download. -/
theorem verify_failure_stops_pipeline_witness :
    (freshPackage "sha256=00=http://x" "/scratch").fetch verifyFailWorld
      = (Except.error (Err.verificationError "00" (sha256Hex [1])),
         [Event.fetched "http://x"]) :=
  verify_failure_stops_pipeline.2.1 "sha256=00=http://x" "/scratch" verifyFailWorld
    ⟨"sha256", "00", "http://x"⟩ [1] (Err.verificationError "00" (sha256Hex [1]))
    rfl rfl
    (by simp [UriResource.verify, UriResource.verifierSha256,
          show sha256Hex [1] ≠ "00" by decide])

/-- Top-level listing of an archive carrying both lifecycle scripts
directly at its root. -/
def flatPkgListing : List FsEntry :=
  [FsEntry.file "install.sh", FsEntry.file "uninstall.sh"]

/-- World for the end-to-end scenario: descriptor with algorithm none,
download succeeds, the archive is flat, install.sh exits 0 and
uninstall.sh exits 1. -/
def scenarioAWorld : World :=
  ⟨fun _ => some [7], fun _ => some flatPkgListing,
   fun s _ => if s = "/scratch/uninstall.sh" then 1 else 0⟩

/-- World identical to the scenario world except that every script exits
with status 2. -/
def scriptExit2World : World :=
  ⟨fun _ => some [7], fun _ => some flatPkgListing, fun _ _ => 2⟩

theorem cliExec_err_exit_one (verb pkg tempdirName : String) (w : World) :
    (cliExec verb pkg tempdirName w).err = none
    ∨ (cliExec verb pkg tempdirName w).exitCode = 1 := by
  unfold cliExec
  repeat' split
  all_goals simp

theorem cliRun_err_exit_one (argv : List String) (tempdirName : String) (w : World) :
    (cliRun argv tempdirName w).err = none
    ∨ (cliRun argv tempdirName w).exitCode = 1 := by
  unfold cliRun
  split
  · simp
  · exact cliExec_err_exit_one _ _ _ w

/-- C5 counterexample: when uninstall.sh exits with status 2, the run
fails with the script-execution error carrying 2, but the process exit
status is 1 — the uncaught `CalledProcessError` terminates CPython with
status 1, not with the script's own exit code. -/
theorem script_exit_code_not_process_exit :
    (cliRun ["ezsetup", "uninstall", "none==http://pkg"] "/scratch" scriptExit2World).err
        = some (Err.scriptExecution 2)
    ∧ (cliRun ["ezsetup", "uninstall", "none==http://pkg"] "/scratch"
        scriptExit2World).exitCode = 1
    ∧ ¬(cliRun ["ezsetup", "uninstall", "none==http://pkg"] "/scratch"
        scriptExit2World).exitCode = 2 :=
  ⟨rfl, rfl, by intro h; exact absurd (rfl.trans h.symm) (by decide)⟩

/-- C5 amended: a non-zero script exit status fails the operation with the
script-execution error carrying exactly that exit code, and the process
then exits with status 1 (the status CPython uses for an uncaught
exception) — which coincides with the script's exit code in the spec's
scenario: install.sh exiting 0 gives process exit 0, uninstall.sh exiting
1 gives process exit 1. -/
theorem script_failure_reporting :
    (∀ (s c : String) (w : World), w.runScript s c ≠ 0 →
        scriptExec s c w
          = (Except.error (Err.scriptExecution (w.runScript s c)),
             [Event.scriptRun s c]))
    ∧ (∀ (argv : List String) (tempdirName : String) (w : World) (c : Nat),
        (cliRun argv tempdirName w).err = some (Err.scriptExecution c) →
        (cliRun argv tempdirName w).exitCode = 1)
    ∧ (cliRun ["ezsetup", "install", "none==http://pkg"] "/scratch"
        scenarioAWorld).exitCode = 0
    ∧ (cliRun ["ezsetup", "uninstall", "none==http://pkg"] "/scratch"
        scenarioAWorld).exitCode = 1 := by
  refine ⟨?_, ?_, rfl, rfl⟩
  · intro s c w h
    simp [scriptExec, h]
  · intro argv tempdirName w c h
    rcases cliRun_err_exit_one argv tempdirName w with h0 | h1
    · rw [h] at h0
      cases h0
    · exact h1

/-- C5 witness: a failing script under the all-scripts-exit-2 world. -/
theorem script_failure_reporting_witness :
    scriptExec "/scratch/uninstall.sh" "/scratch" scriptExit2World
      = (Except.error (Err.scriptExecution 2),
         [Event.scriptRun "/scratch/uninstall.sh" "/scratch"]) :=
  script_failure_reporting.1 "/scratch/uninstall.sh" "/scratch" scriptExit2World
    (by decide)

theorem pySplit_ne_nil (sep : Char) :
    ∀ (s : List Char) (limit : Nat), pySplit sep s limit ≠ [] := by
  intro s
  induction s with
  | nil => intro limit; simp [pySplit]
  | cons c rest ih =>
    intro limit
    by_cases h : c = sep
    · cases limit with
      | zero =>
        rcases hs : pySplit sep rest 0 with _ | ⟨seg, segs⟩ <;> simp [pySplit, h, hs]
      | succ n => simp [pySplit, h]
    · rcases hs : pySplit sep rest limit with _ | ⟨seg, segs⟩ <;> simp [pySplit, h, hs]

theorem pySplit_length_le (sep : Char) :
    ∀ (s : List Char) (limit : Nat), (pySplit sep s limit).length ≤ limit + 1 := by
  intro s
  induction s with
  | nil => intro limit; simp [pySplit]
  | cons c rest ih =>
    intro limit
    by_cases h : c = sep
    · cases limit with
      | zero =>
        rcases hs : pySplit sep rest 0 with _ | ⟨seg, segs⟩
        · exact absurd hs (pySplit_ne_nil sep rest 0)
        · have hl := ih 0
          rw [hs] at hl
          simp only [pySplit, h, if_pos, hs]
          simpa using hl
      | succ n =>
        have hl := ih n
        simp only [pySplit, h, if_pos]
        simpa using hl
    · rcases hs : pySplit sep rest limit with _ | ⟨seg, segs⟩
      · exact absurd hs (pySplit_ne_nil sep rest limit)
      · have hl := ih limit
        rw [hs] at hl
        simp only [pySplit, h, if_neg, hs]
        simpa using hl

theorem pySplit_zero (sep : Char) : ∀ s : List Char, pySplit sep s 0 = [s] := by
  intro s
  induction s with
  | nil => rfl
  | cons c rest ih =>
    by_cases h : c = sep <;> simp [pySplit, h, ih]

theorem pySplit_one (sep : Char) (u : List Char) :
    ∀ d : List Char, sep ∉ d → pySplit sep (d ++ sep :: u) 1 = [d, u] := by
  intro d
  induction d with
  | nil => intro _; simp [pySplit, pySplit_zero]
  | cons c d ih =>
    intro h
    have hc : ¬c = sep := fun hcs => h (by simp [hcs])
    have hd : sep ∉ d := fun hm => h (List.mem_cons_of_mem c hm)
    simp [pySplit, hc, ih hd]

theorem pySplit_two (sep : Char) (u d : List Char) (hd : sep ∉ d) :
    ∀ a : List Char, sep ∉ a →
      pySplit sep (a ++ sep :: (d ++ sep :: u)) 2 = [a, d, u] := by
  intro a
  induction a with
  | nil => intro _; simp [pySplit, pySplit_one sep u d hd]
  | cons c a ih =>
    intro h
    have hc : ¬c = sep := fun hcs => h (by simp [hcs])
    have ha : sep ∉ a := fun hm => h (List.mem_cons_of_mem c hm)
    simp [pySplit, hc, ih ha]

/-- C3: descriptor parsing splits on the separator into at most three
segments; every well-formed descriptor built from a separator-free
algorithm and digest and an arbitrary URL — internal separators included —
is recovered field for field; and any other segment count fails with the
malformed-descriptor error. -/
theorem descriptor_parsing :
    (∀ uri : String, (pySplit '=' uri.toList 2).length ≤ 3)
    ∧ (∀ a d u : List Char, '=' ∉ a → '=' ∉ d →
        parseUri ⟨a ++ '=' :: (d ++ '=' :: u)⟩ = Except.ok ⟨⟨a⟩, ⟨d⟩, ⟨u⟩⟩)
    ∧ (∀ uri : String, (pySplit '=' uri.toList 2).length ≠ 3 →
        parseUri uri = Except.error (Err.malformedDescriptor uri)) := by
  refine ⟨fun uri => pySplit_length_le '=' uri.toList 2, ?_, ?_⟩
  · intro a d u ha hd
    unfold parseUri
    rw [show (String.mk (a ++ '=' :: (d ++ '=' :: u))).toList
          = a ++ '=' :: (d ++ '=' :: u) from rfl]
    rw [pySplit_two '=' u d hd a ha]
  · intro uri h
    unfold parseUri
    rcases hs : pySplit '=' uri.toList 2 with
        _ | ⟨x, _ | ⟨y, _ | ⟨z, _ | ⟨v, rest⟩⟩⟩⟩
    · rfl
    · rfl
    · rfl
    · rw [hs] at h
      simp at h
    · rfl

/-- C3 witness: a descriptor whose URL carries an internal separator is
recovered with the URL intact. -/
theorem descriptor_parsing_witness :
    parseUri ⟨"sha256".toList ++ '=' :: ("00ff".toList ++ '=' :: "https://x?a=b".toList)⟩
      = Except.ok ⟨⟨"sha256".toList⟩, ⟨"00ff".toList⟩, ⟨"https://x?a=b".toList⟩⟩ :=
  descriptor_parsing.2.1 "sha256".toList "00ff".toList "https://x?a=b".toList
    (by decide) (by decide)

/-- Check that a character is a lower-case hexadecimal digit. -/
def isLowerHexChar (c : Char) : Bool := "0123456789abcdef".toList.contains c

/-- Check that every character of a string is a lower-case hexadecimal
digit. -/
def lowerHexStr (s : String) : Bool := s.toList.all isLowerHexChar

theorem hexDigitChar_lower : ∀ n < 16, isLowerHexChar (hexDigitChar n) = true := by
  decide

theorem hexNibbles_lower :
    ∀ (n v : Nat), (hexNibbles n v).all isLowerHexChar = true := by
  intro n
  induction n with
  | zero => intro v; rfl
  | succ m ih =>
    intro v
    simp only [hexNibbles, List.all_cons, ih, Bool.and_true]
    exact hexDigitChar_lower _ (Nat.mod_lt _ (by norm_num))

theorem foldrHex_lower :
    ∀ ws : List Nat,
      ((ws.foldr (fun w acc => hexNibbles 8 w ++ acc) []).all isLowerHexChar) = true := by
  intro ws
  induction ws with
  | nil => rfl
  | cons w ws ih =>
    simp only [List.foldr_cons, List.all_append, ih, Bool.and_true]
    exact hexNibbles_lower 8 w

theorem sha256Hex_lower : ∀ msg : List Nat, lowerHexStr (sha256Hex msg) = true := by
  intro msg
  exact foldrHex_lower (sha256Words msg)

/-- C4: with algorithm sha256, verification succeeds exactly when the
lower-case hexadecimal SHA-256 digest of the data equals the stored tag
(string equality, hence case-sensitive), and on a mismatch it fails with
the verification error carrying both the expected and the computed
digest.  The digest really is lower-case hexadecimal, and the embedded
hash agrees with the SHA-256 test vectors for the empty and the abc
message. -/
theorem sha256_verification :
    (∀ (tag url : String) (data : List Nat),
        (UriResource.verify ⟨"sha256", tag, url⟩ data = Except.ok ()
          ↔ sha256Hex data = tag)
        ∧ (sha256Hex data ≠ tag →
            UriResource.verify ⟨"sha256", tag, url⟩ data
              = Except.error (Err.verificationError tag (sha256Hex data))))
    ∧ (∀ data : List Nat, lowerHexStr (sha256Hex data) = true)
    ∧ sha256Hex (strBytes "abc")
        = "ba7816bf8f01cfea414140de5dae2223b00361a396177a9cb410ff61f20015ad"
    ∧ sha256Hex []
        = "e3b0c44298fc1c149afbf4c8996fb92427ae41e4649b934ca495991b7852b855" := by
  refine ⟨?_, sha256Hex_lower, by decide, by decide⟩
  intro tag url data
  constructor
  · by_cases h : sha256Hex data = tag <;>
      simp [UriResource.verify, UriResource.verifierSha256, h]
  · intro h
    simp [UriResource.verify, UriResource.verifierSha256, h]

/-- C4 witness: the empty buffer against a wrong digest fails carrying
both digests. -/
theorem sha256_verification_witness :
    ¬sha256Hex [] = "00"
    ∧ UriResource.verify ⟨"sha256", "00", "http://x"⟩ []
        = Except.error (Err.verificationError "00" (sha256Hex [])) :=
  ⟨by decide, (sha256_verification.1 "00" "http://x" []).2 (by decide)⟩

end EzSetup
